import Mathlib

/-!
Shallow embedding of src/wlan-refresh/main.cpp.

The program is a Windows command-line utility that requests a Wi-Fi scan on
every wireless interface, waits (bounded, 4 seconds polled at 1 ms) for the
asynchronous scan-complete notification per interface, and optionally prints
the visible network names. OS calls (WlanOpenHandle, WlanRegisterNotification,
WlanEnumInterfaces, WlanScan, WlanGetAvailableNetworkList, WlanCloseHandle)
are modelled by an environment structure supplying each call result; GUIDs are
modelled as naturals, HRESULTs as integers with FAILED hr meaning hr is
negative, and one wait-loop iteration stands for one millisecond of polling.
-/

namespace WlanRefresh

/-- The FAILED test on an HRESULT: negative values indicate failure. -/
def FAILED (hr : Int) : Bool := hr < 0

/-- The WLAN_NOTIFICATION_ACM enumerator wlan_notification_acm_scan_complete
from wlanapi.h; its concrete value is irrelevant to the program logic. -/
def wlan_notification_acm_scan_complete : Nat := 7

/-- A notification event delivered by the OS to the registered callback:
the millisecond (relative to the start of the current wait) at which it is
delivered, the interface GUID it concerns, and its notification code. -/
structure Notif where
  time : Nat
  guid : Nat
  code : Nat
deriving DecidableEq

/-- Embeds wlan_callback (main.cpp lines 30-38): given the current global
scan_guid and the notification fields, it sets scan_complete to true exactly
when the notification GUID equals scan_guid and the code is
wlan_notification_acm_scan_complete, and leaves it unchanged otherwise. -/
def wlan_callback (scan_guid : Nat) (guid code : Nat) (scan_complete : Bool) : Bool :=
  if guid = scan_guid ∧ code = wlan_notification_acm_scan_complete then true
  else scan_complete

/-- Value of the shared scan_complete flag at millisecond t of the current
wait: the flag is reset to false before the scan request (main.cpp line 134),
then every notification delivered no later than t is folded through
wlan_callback. -/
def scan_complete_at (scan_guid : Nat) (notifs : List Notif) (t : Nat) : Bool :=
  (notifs.filter (fun e => decide (e.time ≤ t))).foldl
    (fun acc e => wlan_callback scan_guid e.guid e.code acc) false

/-- Embeds the polling wait loop (main.cpp lines 149-154), counting down the
remaining milliseconds of the 4 second budget. The loop continues while the
signal is unset and the elapsed time is below the budget; each iteration
sleeps 1 ms, modelled as elapsed increasing by one. Returns the elapsed
milliseconds at exit. -/
def wait_loop_aux (signal : Nat → Bool) (elapsed : Nat) : Nat → Nat
  | 0 => elapsed
  | remaining + 1 =>
    if signal elapsed then elapsed
    else wait_loop_aux signal (elapsed + 1) remaining

/-- The full wait: start at elapsed 0 with a 4000 ms budget (four seconds at
1 ms polling granularity). -/
def wait_loop (signal : Nat → Bool) : Nat :=
  wait_loop_aux signal 0 4000

/-- One entry of the WLAN_AVAILABLE_NETWORK_LIST: the profile name (non-empty
exactly when strProfileName[0] is not the null character, i.e. the network is
the currently connected one) and the SSID bytes that get printed. -/
structure Network where
  strProfileName : String
  ucSSID : String
deriving DecidableEq

/-- Environment: the results the OS returns for each call the program makes.
Interfaces are the enumerated GUIDs (used when the enumeration HRESULT
succeeds); scanHr and fetchHr give the per-GUID WlanScan and
WlanGetAvailableNetworkList results; networks gives the list returned on a
successful fetch; notifs gives the notifications delivered during the wait
for a given GUID. -/
structure Env where
  openHr : Int
  registerHr : Int
  enumHr : Int
  interfaces : List Nat
  scanHr : Nat → Int
  fetchHr : Nat → Int
  networks : Nat → List Network
  notifs : Nat → List Notif

/-- Embeds the printing loop (main.cpp lines 173-183): an entry is skipped
when its profile name is non-empty and include_connected is unset; otherwise
its SSID is printed, in list order. -/
def print_networks (include_connected : Bool) : List Network → List String
  | [] => []
  | n :: rest =>
    if ¬ n.strProfileName = "" ∧ include_connected = false then
      print_networks include_connected rest
    else
      n.ucSSID :: print_networks include_connected rest

/-- Result of one iteration of the interface loop: milliseconds spent in the
wait loop, lines printed to stdout, contribution to interface_scan_failures,
and number of WlanGetAvailableNetworkList calls made. -/
structure StepResult where
  waited : Nat
  lines : List String
  failInc : Nat
  fetchAttempts : Nat

/-- Embeds one iteration of the interface loop (main.cpp lines 126-187):
scan_guid is set to this GUID and scan_complete reset to false (modelled by
scan_complete_at folding from false), WlanScan is issued, the wait loop runs
only if the scan request succeeded, and then, only when output_networks is
set, the network list is fetched: a failed fetch increments the failure
counter, a successful one prints the filtered list. -/
def adapter_step (env : Env) (output_networks include_connected : Bool) (g : Nat) :
    StepResult :=
  let waited :=
    if FAILED (env.scanHr g) = false then
      wait_loop (scan_complete_at g (env.notifs g))
    else 0
  if output_networks = false then
    ⟨waited, [], 0, 0⟩
  else if FAILED (env.fetchHr g) = true then
    ⟨waited, [], 1, 1⟩
  else
    ⟨waited, print_networks include_connected (env.networks g), 0, 1⟩

/-- Accumulated result of the interface loop. -/
structure LoopResult where
  lines : List String
  scans : List Nat
  waits : List Nat
  failures : Nat
  fetches : Nat

/-- The interface loop over the enumerated GUIDs, in enumeration order;
WlanScan is requested for every interface, and the per-interface outcomes are
concatenated and summed. -/
def loop_adapters (env : Env) (out inc : Bool) : List Nat → LoopResult
  | [] => ⟨[], [], [], 0, 0⟩
  | g :: rest =>
    let s := adapter_step env out inc g
    let r := loop_adapters env out inc rest
    ⟨s.lines ++ r.lines, g :: r.scans, s.waited :: r.waits,
     s.failInc + r.failures, s.fetchAttempts + r.fetches⟩

/-- The error_codes enum (main.cpp lines 16-24). -/
inductive error_codes where
  | none
  | interface_scan_failed
  | wlan_open_failed
  | interface_enum_failed
  | no_interface
  | all_interface_scans_failed
deriving DecidableEq

/-- The integer value of each error_codes enumerator. -/
def error_codes.toInt : error_codes → Int
  | .none => 0
  | .interface_scan_failed => 1
  | .wlan_open_failed => -1
  | .interface_enum_failed => -2
  | .no_interface => -3
  | .all_interface_scans_failed => -4

/-- Outcome of argument parsing: either the help path was taken (the program
prints usage and returns 0 before touching the WLAN API), or the two option
flags were collected. -/
inductive ParseResult where
  | help
  | opts (output_networks include_connected : Bool)
deriving DecidableEq

/-- Embeds the argument loop (main.cpp lines 45-81): each argument may set
output_networks or include_connected by exact string comparison; a help
argument returns immediately; anything else is ignored. -/
def parse_loop : List String → Bool → Bool → ParseResult
  | [], out, inc => .opts out inc
  | a :: rest, out, inc =>
    let out := if a = "--list" ∨ a = "-l" then true else out
    let inc := if a = "--include-connected" ∨ a = "-i" then true else inc
    if a = "--help" ∨ a = "-h" ∨ a = "-?" then .help
    else parse_loop rest out inc

/-- The set of argument strings the program compares against. -/
def recognized (a : String) : Bool :=
  decide (a = "--list" ∨ a = "-l" ∨ a = "--include-connected" ∨ a = "-i" ∨
          a = "--help" ∨ a = "-h" ∨ a = "-?")

/-- The usage text printed on the help path (main.cpp lines 64-77). -/
def usage_lines : List String :=
  ["Utility for requesting immediate refresh of available Wi-Fi networks.",
   "Parameters:",
   "\t-l, --list               Output the list of available networks to stdout",
   "\t-i, --include-connected  Include currently connected networks",
   "",
   "Error codes:",
   "\tPositive error codes are non-critical (warnings).",
   "",
   "\tnone: 0",
   "\tinterface_scan_failed: 1",
   "\twlan_open_failed: -1",
   "\tinterface_enum_failed: -2",
   "\tno_interface: -3",
   "\tall_interface_scans_failed: -4"]

/-- Observable outcome of a run: process exit code, stdout and stderr lines,
the GUIDs passed to WlanScan in order, the milliseconds spent waiting per
interface, the number of WlanCloseHandle calls, and the number of
WlanGetAvailableNetworkList calls. -/
structure RunResult where
  exitCode : Int
  stdoutLines : List String
  stderrLines : List String
  scanRequests : List Nat
  waits : List Nat
  closeCalls : Nat
  fetchCalls : Nat

/-- Embeds main after argument parsing (main.cpp lines 83-209): open the
handle (failure message goes to stdout, exit wlan_open_failed, no close),
register the notification callback (failure is only a stderr warning),
enumerate interfaces (failure closes the handle and exits
interface_enum_failed; an empty list closes the handle and exits
no_interface), run the interface loop, close the handle, and map the failure
counter to the exit code. -/
def run_opts (env : Env) (output_networks include_connected : Bool) : RunResult :=
  if FAILED env.openHr = true then
    ⟨error_codes.wlan_open_failed.toInt,
     ["WlanOpenHandle failed with error code: " ++ toString env.openHr],
     [], [], [], 0, 0⟩
  else
    let warn :=
      if FAILED env.registerHr = true then
        ["Warning: WlanRegisterNotification failed. Scan will time out waiting for completion."]
      else []
    if FAILED env.enumHr = true then
      ⟨error_codes.interface_enum_failed.toInt, [],
       warn ++ ["WlanEnumInterfaces failed with error code: " ++ toString env.enumHr],
       [], [], 1, 0⟩
    else if env.interfaces = [] then
      ⟨error_codes.no_interface.toInt, [],
       warn ++ ["WlanEnumInterfaces returned zero interfaces!"],
       [], [], 1, 0⟩
    else
      let r := loop_adapters env output_networks include_connected env.interfaces
      let interface_count := env.interfaces.length
      let code : Int :=
        if r.failures ≠ 0 then
          if r.failures = interface_count then error_codes.all_interface_scans_failed.toInt
          else error_codes.interface_scan_failed.toInt
        else error_codes.none.toInt
      ⟨code, r.lines, warn, r.scans, r.waits, 1, r.fetches⟩

/-- Embeds main (main.cpp lines 40-209): parse the arguments, take the help
path if requested, otherwise run the scan coordinator. -/
def run (args : List String) (env : Env) : RunResult :=
  match parse_loop args false false with
  | .help => ⟨0, usage_lines, [], [], [], 0, 0⟩
  | .opts output_networks include_connected =>
    run_opts env output_networks include_connected

/-- A concrete environment: two interfaces, every OS call succeeds, each
interface sees one unconnected and one connected network, and no
notifications are delivered. -/
def env0 : Env :=
  ⟨0, 0, 0, [1, 2], fun _ => 0, fun _ => 0,
   fun _ => [⟨"", "opennet"⟩, ⟨"prof", "homenet"⟩], fun _ => []⟩

/-- Variant of env0 in which every WlanScan request fails. -/
def env_scanfail : Env := { env0 with scanHr := fun _ => -1 }

/-- Variant of env0 in which enumeration succeeds with zero interfaces. -/
def env_empty : Env := { env0 with interfaces := [] }

/-- Variant of env0 in which every network fetch fails. -/
def env_fetchfail : Env := { env0 with fetchHr := fun _ => -1 }

end WlanRefresh

namespace WlanRefresh

theorem wait_loop_aux_le (signal : Nat → Bool) :
    ∀ rem elapsed : Nat, wait_loop_aux signal elapsed rem ≤ elapsed + rem := by
  intro rem
  induction rem with
  | zero => intro e; simp [wait_loop_aux]
  | succ r ih =>
    intro e
    unfold wait_loop_aux
    by_cases h : signal e = true
    · simp [h]
    · simp [h]
      have := ih (e + 1)
      omega

theorem wait_loop_aux_least (signal : Nat → Bool) :
    ∀ rem elapsed j : Nat, elapsed ≤ j → j < wait_loop_aux signal elapsed rem →
      signal j = false := by
  intro rem
  induction rem with
  | zero =>
    intro e j hej hlt
    simp [wait_loop_aux] at hlt
    omega
  | succ r ih =>
    intro e j hej hlt
    unfold wait_loop_aux at hlt
    cases hb : signal e with
    | true => rw [hb] at hlt; simp at hlt; omega
    | false =>
      rw [hb] at hlt
      simp at hlt
      rcases Nat.lt_or_ge e j with h2 | h2
      · exact ih (e + 1) j h2 hlt
      · have hej2 : e = j := Nat.le_antisymm hej h2
        exact hej2 ▸ hb

theorem wait_loop_aux_exit (signal : Nat → Bool) :
    ∀ rem elapsed : Nat, signal (wait_loop_aux signal elapsed rem) = true ∨
      wait_loop_aux signal elapsed rem = elapsed + rem := by
  intro rem
  induction rem with
  | zero => intro e; right; simp [wait_loop_aux]
  | succ r ih =>
    intro e
    unfold wait_loop_aux
    cases hb : signal e with
    | true => left; simp [hb]
    | false =>
      rcases ih (e + 1) with h | h
      · left; simpa [hb] using h
      · right; simp [hb, h]; omega

theorem wait_loop_aux_all_false (signal : Nat → Bool) (h : ∀ t, signal t = false) :
    ∀ rem elapsed : Nat, wait_loop_aux signal elapsed rem = elapsed + rem := by
  intro rem
  induction rem with
  | zero => intro e; simp [wait_loop_aux]
  | succ r ih =>
    intro e
    unfold wait_loop_aux
    simp [h e, ih (e + 1)]
    omega

theorem adapter_step_notifs_indep (env : Env) (n : Nat → List Notif) (out inc : Bool)
    (g : Nat) :
    (adapter_step { env with notifs := n } out inc g).lines =
      (adapter_step env out inc g).lines
    ∧ (adapter_step { env with notifs := n } out inc g).failInc =
      (adapter_step env out inc g).failInc
    ∧ (adapter_step { env with notifs := n } out inc g).fetchAttempts =
      (adapter_step env out inc g).fetchAttempts := by
  unfold adapter_step
  by_cases h1 : out = false <;> by_cases h2 : FAILED (env.fetchHr g) = true <;>
    simp [h1, h2]

theorem loop_adapters_notifs_indep (env : Env) (n : Nat → List Notif) (out inc : Bool) :
    ∀ gs : List Nat,
      (loop_adapters { env with notifs := n } out inc gs).lines =
        (loop_adapters env out inc gs).lines
      ∧ (loop_adapters { env with notifs := n } out inc gs).failures =
        (loop_adapters env out inc gs).failures
      ∧ (loop_adapters { env with notifs := n } out inc gs).fetches =
        (loop_adapters env out inc gs).fetches := by
  intro gs
  induction gs with
  | nil => exact ⟨rfl, rfl, rfl⟩
  | cons g rest ih =>
    have hs := adapter_step_notifs_indep env n out inc g
    simp [loop_adapters, hs.1, hs.2.1, hs.2.2, ih.1, ih.2.1, ih.2.2]

theorem run_opts_notifs_indep (env : Env) (n : Nat → List Notif) (out inc : Bool) :
    (run_opts { env with notifs := n } out inc).exitCode =
      (run_opts env out inc).exitCode
    ∧ (run_opts { env with notifs := n } out inc).stdoutLines =
      (run_opts env out inc).stdoutLines := by
  have hl := loop_adapters_notifs_indep env n out inc env.interfaces
  unfold run_opts
  by_cases h1 : FAILED env.openHr = true <;>
    by_cases h2 : FAILED env.enumHr = true <;>
      by_cases h3 : env.interfaces = [] <;>
        simp [h1, h2, h3, hl.1, hl.2.1]

theorem run_notifs_indep (env : Env) (n1 n2 : Nat → List Notif) (args : List String) :
    (run args { env with notifs := n1 }).exitCode =
      (run args { env with notifs := n2 }).exitCode
    ∧ (run args { env with notifs := n1 }).stdoutLines =
      (run args { env with notifs := n2 }).stdoutLines := by
  unfold run
  cases hp : parse_loop args false false with
  | help => exact ⟨rfl, rfl⟩
  | opts out inc =>
    have h1 := run_opts_notifs_indep env n1 out inc
    have h2 := run_opts_notifs_indep env n2 out inc
    exact ⟨h1.1.trans h2.1.symm, h1.2.trans h2.2.symm⟩

/-- C4: for every adapter whose scan request succeeds, the wait loop
terminates: it never runs past the 4000 ms budget (4 seconds polled at 1 ms
per iteration), it ends at or before the first millisecond at which the
completion signal is true (early wake), on exit either the signal is set or
the full budget elapsed, the signal is false at every earlier poll, and a
timeout is silent: the exit code and stdout of a run do not depend on the
notification stream at all. -/
theorem wait_bounded_and_early (signal : Nat → Bool) (env : Env) (args : List String)
    (n1 n2 : Nat → List Notif) :
    wait_loop signal ≤ 4000
    ∧ (∀ k, signal k = true → wait_loop signal ≤ k)
    ∧ (signal (wait_loop signal) = true ∨ wait_loop signal = 4000)
    ∧ (∀ j, j < wait_loop signal → signal j = false)
    ∧ (run args { env with notifs := n1 }).exitCode =
        (run args { env with notifs := n2 }).exitCode
    ∧ (run args { env with notifs := n1 }).stdoutLines =
        (run args { env with notifs := n2 }).stdoutLines := by
  have hle := wait_loop_aux_le signal 4000 0
  have hexit := wait_loop_aux_exit signal 4000 0
  have hleast := fun j => wait_loop_aux_least signal 4000 0 j (Nat.zero_le j)
  have hindep := run_notifs_indep env n1 n2 args
  refine ⟨by simpa [wait_loop] using hle, ?_,
          by simpa [wait_loop] using hexit,
          fun j hj => hleast j (by simpa [wait_loop] using hj),
          hindep.1, hindep.2⟩
  intro k hk
  by_contra hgt
  push_neg at hgt
  have hkf := hleast k (by simpa [wait_loop] using hgt)
  rw [hkf] at hk
  exact Bool.false_ne_true hk

/-- Witness for C4 at a concrete signal and environment. -/
theorem wait_bounded_and_early_witness :
    wait_loop (fun t => decide (t = 2)) ≤ 4000 :=
  (wait_bounded_and_early (fun t => decide (t = 2)) env0 []
    (fun _ => []) (fun _ => [])).1

theorem foldl_callback_no_match (g : Nat) :
    ∀ (l : List Notif) (b : Bool),
      (∀ e ∈ l, e.guid ≠ g ∨ e.code ≠ wlan_notification_acm_scan_complete) →
      l.foldl (fun acc e => wlan_callback g e.guid e.code acc) b = b := by
  intro l
  induction l with
  | nil => intro b _; rfl
  | cons e rest ih =>
    intro b h
    have he := h e (List.mem_cons_self e rest)
    have hcb : wlan_callback g e.guid e.code b = b := by
      unfold wlan_callback
      rw [if_neg]
      tauto
    rw [List.foldl_cons, hcb]
    exact ih b (fun x hx => h x (List.mem_cons_of_mem e hx))

theorem scan_complete_at_no_match (g : Nat) (notifs : List Notif)
    (hno : ∀ e ∈ notifs, e.guid ≠ g ∨ e.code ≠ wlan_notification_acm_scan_complete)
    (t : Nat) : scan_complete_at g notifs t = false := by
  unfold scan_complete_at
  exact foldl_callback_no_match g _ false
    (fun e he => hno e (List.mem_filter.mp he).1)

/-- C3: the completion signal is reset to false before the scan request is
issued (scan_complete_at folds from false), the callback leaves the signal
unchanged on any notification whose GUID differs from the awaited one or
whose code is not scan-complete and sets it to true on a matching one; hence
when no notification matches the awaited adapter, the signal stays false at
every poll and the wait for that adapter runs the full 4000 ms with no early
termination. -/
theorem notification_correlation (env : Env) (out inc : Bool) (g : Nat)
    (hscan : FAILED (env.scanHr g) = false)
    (hno : ∀ e ∈ env.notifs g, e.guid ≠ g ∨ e.code ≠ wlan_notification_acm_scan_complete) :
    (∀ guid code b, guid ≠ g ∨ code ≠ wlan_notification_acm_scan_complete →
       wlan_callback g guid code b = b)
    ∧ (∀ b, wlan_callback g g wlan_notification_acm_scan_complete b = true)
    ∧ (∀ t, scan_complete_at g (env.notifs g) t = false)
    ∧ (adapter_step env out inc g).waited = 4000 := by
  refine ⟨?_, ?_, scan_complete_at_no_match g (env.notifs g) hno, ?_⟩
  · intro guid code b h
    unfold wlan_callback
    rw [if_neg]
    tauto
  · intro b
    unfold wlan_callback
    rw [if_pos ⟨rfl, rfl⟩]
  · have hwl : wait_loop (scan_complete_at g (env.notifs g)) = 4000 := by
      have := wait_loop_aux_all_false (scan_complete_at g (env.notifs g))
        (scan_complete_at_no_match g (env.notifs g) hno) 4000 0
      simpa [wait_loop] using this
    unfold adapter_step
    by_cases h1 : out = false <;> by_cases h2 : FAILED (env.fetchHr g) = true <;>
      simp [h1, h2, hscan, hwl]

/-- Witness for C3: with no notifications delivered, the wait for interface 1
runs the full four seconds. -/
theorem notification_correlation_witness :
    (adapter_step env0 true false 1).waited = 4000 :=
  (notification_correlation env0 true false 1 (by decide) (by simp [env0])).2.2.2

end WlanRefresh

namespace WlanRefresh

theorem run_eq_opts (args : List String) (env : Env) (out inc : Bool)
    (hargs : parse_loop args false false = ParseResult.opts out inc) :
    run args env = run_opts env out inc := by
  unfold run
  rw [hargs]

theorem run_opts_exit_code (env : Env) (out inc : Bool)
    (hopen : FAILED env.openHr = false) (henum : FAILED env.enumHr = false)
    (hne : env.interfaces ≠ []) :
    (run_opts env out inc).exitCode =
      (if (loop_adapters env out inc env.interfaces).failures ≠ 0 then
        if (loop_adapters env out inc env.interfaces).failures = env.interfaces.length
        then (-4 : Int) else 1
       else 0) := by
  unfold run_opts
  simp [hopen, henum, hne, error_codes.toInt]

theorem run_opts_stdout (env : Env) (out inc : Bool)
    (hopen : FAILED env.openHr = false) (henum : FAILED env.enumHr = false)
    (hne : env.interfaces ≠ []) :
    (run_opts env out inc).stdoutLines =
      (loop_adapters env out inc env.interfaces).lines := by
  unfold run_opts
  simp [hopen, henum, hne]

theorem loop_failures_eq_filter (env : Env) (inc : Bool) :
    ∀ gs : List Nat, (loop_adapters env true inc gs).failures =
      (gs.filter (fun g => FAILED (env.fetchHr g))).length := by
  intro gs
  induction gs with
  | nil => rfl
  | cons g rest ih =>
    unfold loop_adapters
    by_cases h : FAILED (env.fetchHr g) = true <;>
      (simp [adapter_step, h, ih, List.filter_cons]; try omega)

/-- C1: with the list option set and setup successful over N enumerated
interfaces, if K of them fail their post-scan network fetch then the exit
code is 0 when K = 0, 1 (warning) when 0 < K < N, and -4 (all failed, fatal)
when K = N. -/
theorem exit_code_aggregation (env : Env) (args : List String) (inc : Bool)
    (hargs : parse_loop args false false = ParseResult.opts true inc)
    (hopen : FAILED env.openHr = false)
    (henum : FAILED env.enumHr = false)
    (hne : env.interfaces ≠ []) :
    ((env.interfaces.filter (fun g => FAILED (env.fetchHr g))).length = 0 →
       (run args env).exitCode = error_codes.none.toInt)
    ∧ (0 < (env.interfaces.filter (fun g => FAILED (env.fetchHr g))).length →
       (env.interfaces.filter (fun g => FAILED (env.fetchHr g))).length <
         env.interfaces.length →
       (run args env).exitCode = error_codes.interface_scan_failed.toInt)
    ∧ ((env.interfaces.filter (fun g => FAILED (env.fetchHr g))).length =
         env.interfaces.length →
       (run args env).exitCode = error_codes.all_interface_scans_failed.toInt) := by
  rw [run_eq_opts args env true inc hargs]
  rw [run_opts_exit_code env true inc hopen henum hne]
  rw [loop_failures_eq_filter env inc env.interfaces]
  have hN : 0 < env.interfaces.length := List.length_pos.mpr hne
  refine ⟨fun h0 => ?_, fun h1 h2 => ?_, fun h3 => ?_⟩
  · simp [h0, error_codes.toInt]
  · rw [if_pos (by omega), if_neg (by omega)]
    simp [error_codes.toInt]
  · rw [if_pos (by omega), if_pos h3]
    simp [error_codes.toInt]

/-- Witness for C1: in env0 every fetch succeeds, so the run exits 0. -/
theorem exit_code_aggregation_witness :
    (run ["--list"] env0).exitCode = error_codes.none.toInt :=
  (exit_code_aggregation env0 ["--list"] false (by decide) (by decide) (by decide)
    (by decide)).1 (by decide)

theorem print_networks_eq_filter (inc : Bool) :
    ∀ ns : List Network, print_networks inc ns =
      (ns.filter (fun n => decide (n.strProfileName = "") || inc)).map
        Network.ucSSID := by
  intro ns
  induction ns with
  | nil => rfl
  | cons n rest ih =>
    unfold print_networks
    by_cases h : n.strProfileName = "" <;> cases inc <;>
      simp [h, ih, List.filter_cons]

theorem loop_lines_eq (env : Env) (inc : Bool) :
    ∀ gs : List Nat, (loop_adapters env true inc gs).lines =
      gs.flatMap (fun g =>
        if FAILED (env.fetchHr g) = true then []
        else ((env.networks g).filter
          (fun n => decide (n.strProfileName = "") || inc)).map Network.ucSSID) := by
  intro gs
  induction gs with
  | nil => rfl
  | cons g rest ih =>
    unfold loop_adapters
    by_cases h : FAILED (env.fetchHr g) = true <;>
      simp [adapter_step, h, ih, List.flatMap_cons, print_networks_eq_filter]

/-- C2: when the list option is set and setup succeeds, stdout is exactly the
concatenation, in enumeration order, of the per-interface network lists in
the order the OS returned them, keeping an entry precisely when its profile
name is empty (not connected) or include-connected is set; interfaces whose
fetch failed contribute nothing. -/
theorem list_output_filter (env : Env) (args : List String) (inc : Bool)
    (hargs : parse_loop args false false = ParseResult.opts true inc)
    (hopen : FAILED env.openHr = false)
    (henum : FAILED env.enumHr = false)
    (hne : env.interfaces ≠ []) :
    (run args env).stdoutLines =
      env.interfaces.flatMap (fun g =>
        if FAILED (env.fetchHr g) = true then []
        else ((env.networks g).filter
          (fun n => decide (n.strProfileName = "") || inc)).map Network.ucSSID) := by
  rw [run_eq_opts args env true inc hargs]
  rw [run_opts_stdout env true inc hopen henum hne]
  exact loop_lines_eq env inc env.interfaces

/-- Witness for C2: in env0 with include-connected unset, only the entries
with an empty profile name are printed, one per interface. -/
theorem list_output_filter_witness :
    (run ["--list"] env0).stdoutLines =
      env0.interfaces.flatMap (fun g =>
        if FAILED (env0.fetchHr g) = true then []
        else ((env0.networks g).filter
          (fun n => decide (n.strProfileName = "") || false)).map Network.ucSSID) :=
  list_output_filter env0 ["--list"] false (by decide) (by decide) (by decide)
    (by decide)

theorem loop_no_output (env : Env) (inc : Bool) :
    ∀ gs : List Nat, (loop_adapters env false inc gs).failures = 0
      ∧ (loop_adapters env false inc gs).fetches = 0 := by
  intro gs
  induction gs with
  | nil => exact ⟨rfl, rfl⟩
  | cons g rest ih =>
    unfold loop_adapters
    simp [adapter_step, ih.1, ih.2]

/-- C5: when the list option is not set and setup succeeds, the run makes no
network fetch calls, so the failure counter stays zero and the exit code is
success, whatever the per-interface scan outcomes. -/
theorem no_list_exit_zero (env : Env) (args : List String) (inc : Bool)
    (hargs : parse_loop args false false = ParseResult.opts false inc)
    (hopen : FAILED env.openHr = false)
    (henum : FAILED env.enumHr = false)
    (hne : env.interfaces ≠ []) :
    (run args env).exitCode = error_codes.none.toInt
    ∧ (run args env).fetchCalls = 0 := by
  rw [run_eq_opts args env false inc hargs]
  have hl := loop_no_output env inc env.interfaces
  constructor
  · rw [run_opts_exit_code env false inc hopen henum hne]
    simp [hl.1, error_codes.toInt]
  · unfold run_opts
    simp [hopen, henum, hne, hl.2]

/-- Witness for C5: running env0 without the list option exits 0 with no
fetch calls, even though env_scanfail makes every scan request fail. -/
theorem no_list_exit_zero_witness :
    (run [] env_scanfail).exitCode = error_codes.none.toInt
    ∧ (run [] env_scanfail).fetchCalls = 0 :=
  no_list_exit_zero env_scanfail [] false (by decide) (by decide) (by decide)
    (by decide)

end WlanRefresh

namespace WlanRefresh

/-- C6: when the WlanScan request for an interface fails, the wait loop is
skipped (zero milliseconds waited), yet the iteration proceeds identically to
a successful request in its failure-counter contribution, printed lines and
fetch attempts; and the counter contribution is 1 exactly when listing is on
and the network fetch fails, never because of the request failure itself. -/
theorem scan_request_failure_step (env : Env) (out inc : Bool) (g : Nat)
    (hscan : FAILED (env.scanHr g) = true) :
    (adapter_step env out inc g).waited = 0
    ∧ (adapter_step env out inc g).failInc =
        (adapter_step { env with scanHr := fun _ => 0 } out inc g).failInc
    ∧ (adapter_step env out inc g).lines =
        (adapter_step { env with scanHr := fun _ => 0 } out inc g).lines
    ∧ (adapter_step env out inc g).fetchAttempts =
        (adapter_step { env with scanHr := fun _ => 0 } out inc g).fetchAttempts
    ∧ (adapter_step env out inc g).failInc =
        (if out = true ∧ FAILED (env.fetchHr g) = true then 1 else 0) := by
  have h0 : FAILED 0 = false := rfl
  have hsf : (FAILED (env.scanHr g) = false) ↔ False := by simp [hscan]
  unfold adapter_step
  cases out <;> by_cases h2 : FAILED (env.fetchHr g) = true <;>
    simp [h2, hsf, h0]

/-- Witness for C6: with every scan request failing, interface 1 waits zero
milliseconds. -/
theorem scan_request_failure_step_witness :
    (adapter_step env_scanfail true false 1).waited = 0 :=
  (scan_request_failure_step env_scanfail true false 1 (by decide)).1

/-- C7: when enumeration succeeds with zero interfaces, the run exits with
the no_interface code (-3), requests no scans, closes the session exactly
once, and that exit code is distinct from the enumeration-error code (-2). -/
theorem zero_adapters_exit (env : Env) (args : List String) (out inc : Bool)
    (hargs : parse_loop args false false = ParseResult.opts out inc)
    (hopen : FAILED env.openHr = false)
    (henum : FAILED env.enumHr = false)
    (hz : env.interfaces = []) :
    (run args env).exitCode = error_codes.no_interface.toInt
    ∧ (run args env).scanRequests = []
    ∧ (run args env).closeCalls = 1
    ∧ error_codes.no_interface.toInt ≠ error_codes.interface_enum_failed.toInt := by
  rw [run_eq_opts args env out inc hargs]
  unfold run_opts
  simp [hopen, henum, hz, error_codes.toInt]

/-- Witness for C7 at the concrete zero-interface environment. -/
theorem zero_adapters_exit_witness :
    (run ["--list"] env_empty).exitCode = error_codes.no_interface.toInt :=
  (zero_adapters_exit env_empty ["--list"] true false (by decide) (by decide)
    (by decide) (by decide)).1

/-- C8: on every execution path on which the handle was successfully opened,
including the enumeration-failure and zero-interface fatal paths,
WlanCloseHandle is called exactly once. -/
theorem session_closed_once (env : Env) (args : List String) (out inc : Bool)
    (hargs : parse_loop args false false = ParseResult.opts out inc)
    (hopen : FAILED env.openHr = false) :
    (run args env).closeCalls = 1 := by
  rw [run_eq_opts args env out inc hargs]
  unfold run_opts
  by_cases h2 : FAILED env.enumHr = true <;> by_cases h3 : env.interfaces = [] <;>
    simp [hopen, h2, h3]

/-- Witness for C8 on the fully successful path. -/
theorem session_closed_once_witness :
    (run ["--list"] env0).closeCalls = 1 :=
  session_closed_once env0 ["--list"] true false (by decide) (by decide)

theorem step_failInc_le_one (env : Env) (out inc : Bool) (g : Nat) :
    (adapter_step env out inc g).failInc ≤ 1 := by
  unfold adapter_step
  cases out <;> by_cases h2 : FAILED (env.fetchHr g) = true <;> simp [h2]

theorem loop_failures_le (env : Env) (out inc : Bool) :
    ∀ gs : List Nat, (loop_adapters env out inc gs).failures ≤ gs.length := by
  intro gs
  induction gs with
  | nil => exact Nat.le_refl 0
  | cons g rest ih =>
    have hs := step_failInc_le_one env out inc g
    show (adapter_step env out inc g).failInc +
      (loop_adapters env out inc rest).failures ≤ rest.length + 1
    omega

/-- C9: at every point of the interface loop the failure counter is at most
the number of interfaces processed so far (every prefix of the enumeration
keeps the counter at most its length), at loop exit it is at most the total
count, and with setup successful the three final outcomes are exhaustive and
mutually exclusive: exit 0 exactly when the counter is zero, exit 1 exactly
when it is strictly between zero and the count, and exit -4 exactly when it
equals the count. -/
theorem failure_counter_invariant (env : Env) (args : List String) (out inc : Bool)
    (hargs : parse_loop args false false = ParseResult.opts out inc)
    (hopen : FAILED env.openHr = false)
    (henum : FAILED env.enumHr = false)
    (hne : env.interfaces ≠ []) :
    (∀ m, (loop_adapters env out inc (env.interfaces.take m)).failures ≤
        (env.interfaces.take m).length)
    ∧ (loop_adapters env out inc env.interfaces).failures ≤ env.interfaces.length
    ∧ ((run args env).exitCode = 0 ∨ (run args env).exitCode = 1 ∨
        (run args env).exitCode = -4)
    ∧ ((run args env).exitCode = 0 ↔
        (loop_adapters env out inc env.interfaces).failures = 0)
    ∧ ((run args env).exitCode = 1 ↔
        (0 < (loop_adapters env out inc env.interfaces).failures ∧
         (loop_adapters env out inc env.interfaces).failures < env.interfaces.length))
    ∧ ((run args env).exitCode = -4 ↔
        (loop_adapters env out inc env.interfaces).failures = env.interfaces.length) := by
  have hK := loop_failures_le env out inc env.interfaces
  have hN := List.length_pos.mpr hne
  rw [run_eq_opts args env out inc hargs, run_opts_exit_code env out inc hopen henum hne]
  refine ⟨fun m => loop_failures_le env out inc _, hK, ?_, ?_, ?_, ?_⟩
  · split_ifs <;> decide
  all_goals split_ifs <;> constructor <;> intro h <;>
    first
    | exact h.elim
    | trivial
    | omega

/-- Witness for C9: the final exit code of a concrete successful run is one
of the three aggregate outcomes. -/
theorem failure_counter_invariant_witness :
    (run ["--list"] env0).exitCode = 0 ∨ (run ["--list"] env0).exitCode = 1 ∨
      (run ["--list"] env0).exitCode = -4 :=
  (failure_counter_invariant env0 ["--list"] true false (by decide) (by decide)
    (by decide) (by decide)).2.2.1

theorem parse_loop_filter (args : List String) :
    ∀ out inc : Bool,
      parse_loop (args.filter recognized) out inc = parse_loop args out inc := by
  induction args with
  | nil => intro out inc; rfl
  | cons a rest ih =>
    intro out inc
    by_cases h : recognized a = true
    · rw [List.filter_cons, if_pos h]
      unfold parse_loop
      by_cases hh : a = "--help" ∨ a = "-h" ∨ a = "-?" <;> simp [hh, ih]
    · have hx : ¬(a = "--list" ∨ a = "-l" ∨ a = "--include-connected" ∨ a = "-i" ∨
          a = "--help" ∨ a = "-h" ∨ a = "-?") := by
        simpa [recognized] using h
      push_neg at hx
      rw [List.filter_cons, if_neg h]
      conv_rhs => unfold parse_loop
      simp [hx.1, hx.2.1, hx.2.2.1, hx.2.2.2.1, hx.2.2.2.2.1, hx.2.2.2.2.2.1,
        hx.2.2.2.2.2.2, ih]

/-- C10: arguments other than the seven recognized strings are silently
ignored: a run on any argument vector is identical, in its entire observable
result, to the run on the same vector with all unrecognized arguments
removed, and no diagnostic is emitted for them. -/
theorem unrecognized_args_ignored (args : List String) (env : Env) :
    run (args.filter recognized) env = run args env := by
  unfold run
  rw [parse_loop_filter args false false]

end WlanRefresh
